import Mathlib

/-!
Shallow embedding of `src/index.js` of node-gps-recorder: the significance
predicate `pointNeedsUpdate`, the snapshot-to-point transformation
`transformIntoTripPoint` / `replaceNaN`, the odometer accumulator
`updateOdoMeters`, and one cycle of the polling loop `run` (embedded as
`runCycle`).  JavaScript store values (redis replies, model fields) are
embedded as `JVal` (null, string, or number); numbers are rationals, since
no claim depends on floating-point rounding.  The external distance function
`gpsDistance` composed with `parseFloat` is an abstract parameter
`dist : JVal → JVal → JVal → JVal → ℚ` returning kilometers, as in the
source where it is an imported collaborator.  Fallible external calls
(`getCurrentData`, `Trip.findOrCreate`, `TripPoint.create`) are oracles in a
`CycleEnv`.  A JavaScript `TypeError` from dereferencing a field of `null`
is the `Except.error` case.
-/

namespace GPSRec

/-- A JavaScript value as this program sees them: redis replies are strings
or null, persisted model fields may be numbers.  Numbers are rationals. -/
inductive JVal where
  | null : JVal
  | str : String → JVal
  | num : ℚ → JVal
deriving DecidableEq, Repr

/-- Numeric value of a list of decimal digit characters. -/
def natOfDigits (cs : List Char) : ℕ :=
  cs.foldl (fun a c => a * 10 + (c.toNat - 48)) 0

/-- All characters are decimal digits. -/
def allDigits (cs : List Char) : Bool := cs.all Char.isDigit

/-- Models JavaScript ToNumber on the string values this program reads from
the store: optionally signed decimal literals with optional fraction;
`none` stands for NaN.  A trimmed-empty string converts to 0, as in
JavaScript. -/
def strToNumber (s : String) : Option ℚ :=
  match s.trim.toList with
  | [] => some 0
  | cs =>
    let signAndRest : ℚ × List Char :=
      match cs with
      | '-' :: r => (-1, r)
      | '+' :: r => (1, r)
      | r => (1, r)
    let sgn := signAndRest.1
    let rest := signAndRest.2
    let intPart := rest.takeWhile (fun c => c ≠ '.')
    match rest.dropWhile (fun c => c ≠ '.') with
    | [] =>
      if intPart ≠ [] ∧ allDigits intPart then some (sgn * natOfDigits intPart)
      else none
    | '.' :: frac =>
      if (intPart ≠ [] ∨ frac ≠ []) ∧ allDigits intPart ∧ allDigits frac then
        some (sgn * ((natOfDigits intPart : ℚ) +
          (natOfDigits frac : ℚ) / ((10 : ℚ) ^ frac.length)))
      else none
    | _ => none

/-- JavaScript loose equality `==` restricted to the values of `JVal`:
null equals only null, a string compared with a number is converted with
ToNumber (NaN compares unequal). -/
def looseEq : JVal → JVal → Bool
  | .null, .null => true
  | .num a, .num b => decide (a = b)
  | .str a, .str b => decide (a = b)
  | .num a, .str b =>
    match strToNumber b with
    | some q => decide (a = q)
    | none => false
  | .str a, .num b =>
    match strToNumber a with
    | some q => decide (q = b)
    | none => false
  | .null, _ => false
  | _, .null => false

/-- JavaScript `v == 0` for a store value, as in the zero/zero fix check. -/
def looseEqZero (v : JVal) : Bool := looseEq v (.num 0)

/-- JavaScript truthiness of a `JVal`: null is falsy, a string is truthy iff
non-empty, a number is truthy iff non-zero. -/
def truthy : JVal → Bool
  | .null => false
  | .str s => decide (s ≠ "")
  | .num q => decide (q ≠ 0)

/-- The per-cycle telemetry snapshot `o` assembled by `getCurrentData` from
the REDIS_KEYS reads; every field is a redis reply (string or null). -/
structure Obj where
  gpsAlive : JVal
  obdAlive : JVal
  latitude : JVal
  longitude : JVal
  altitude : JVal
  fixMode : JVal
  gpsTime : JVal
  gpsSpeed : JVal
  gpsSpeedKMH : JVal
  gpsAccuracyLon : JVal
  gpsAccuracyLat : JVal
  gpsAccuracyHeight : JVal
  gpsAccuracySpeed : JVal
  obdSpeedKMH : JVal
  engineRpm : JVal
  intakeTemp : JVal
  intakeMAP : JVal
  recordTripIDA : JVal
  recordTripIDB : JVal
deriving DecidableEq, Repr

/-- A trip point record, with the fields built by `transformIntoTripPoint`. -/
structure TripPoint where
  tripID : JVal
  latitude : JVal
  longitude : JVal
  altitude : JVal
  fixMode : JVal
  gpsSpeed : JVal
  accuracyLat : JVal
  accuracyLon : JVal
  accuracyAlt : JVal
  accuracySpd : JVal
  vehicleSpeed : JVal
  vehicleIntakeTemp : JVal
  vehicleIntakeMAP : JVal
  vehicleRPM : JVal
deriving DecidableEq, Repr

/-- Replace the string sentinel value on one field: `o[k] === 'nan'` becomes
null. -/
def replaceNaNField (v : JVal) : JVal := if v = .str "nan" then .null else v

/-- Model of `replaceNaN(o)`: every field strictly equal to the string
`'nan'` is replaced by null. -/
def replaceNaN (p : TripPoint) : TripPoint where
  tripID := replaceNaNField p.tripID
  latitude := replaceNaNField p.latitude
  longitude := replaceNaNField p.longitude
  altitude := replaceNaNField p.altitude
  fixMode := replaceNaNField p.fixMode
  gpsSpeed := replaceNaNField p.gpsSpeed
  accuracyLat := replaceNaNField p.accuracyLat
  accuracyLon := replaceNaNField p.accuracyLon
  accuracyAlt := replaceNaNField p.accuracyAlt
  accuracySpd := replaceNaNField p.accuracySpd
  vehicleSpeed := replaceNaNField p.vehicleSpeed
  vehicleIntakeTemp := replaceNaNField p.vehicleIntakeTemp
  vehicleIntakeMAP := replaceNaNField p.vehicleIntakeMAP
  vehicleRPM := replaceNaNField p.vehicleRPM

/-- Model of `transformIntoTripPoint(tripID, o)` from the source: map the
snapshot fields onto a trip point and normalize the `'nan'` sentinel. -/
def transformIntoTripPoint (tripID : JVal) (o : Obj) : TripPoint :=
  replaceNaN
    { tripID := tripID
      latitude := o.latitude
      longitude := o.longitude
      altitude := o.altitude
      fixMode := o.fixMode
      gpsSpeed := o.gpsSpeed
      accuracyLat := o.gpsAccuracyLat
      accuracyLon := o.gpsAccuracyLon
      accuracyAlt := o.gpsAccuracyHeight
      accuracySpd := o.gpsAccuracySpeed
      vehicleSpeed := o.obdSpeedKMH
      vehicleIntakeTemp := o.intakeTemp
      vehicleIntakeMAP := o.intakeMAP
      vehicleRPM := o.engineRpm }

/-- Configuration consumed by the predicate: `config.get('minTravelDistanceM')`
(default 10 meters). -/
structure Config where
  minTravelDistanceM : ℚ
deriving DecidableEq, Repr

/-- Model of `pointNeedsUpdate(prev, current)` from the source, rule for rule.
`dist` stands for `(a,b,c,d) ↦ gpsDistance(parseFloat a, parseFloat b,
parseFloat c, parseFloat d)` in kilometers.  Dereferencing a field of a
null argument (a JavaScript TypeError) is `Except.error ()`: rule 3 reads
`current.latitude`, rule 4 reads `prev.vehicleSpeed`. -/
def pointNeedsUpdate (dist : JVal → JVal → JVal → JVal → ℚ) (cfg : Config)
    (prev current : Option TripPoint) : Except Unit Bool :=
  if prev.isNone && current.isNone then .ok false
  else if prev.isNone &&
      (match current with
       | some c => !(looseEqZero c.latitude) && !(looseEqZero c.longitude)
       | none => false) then .ok true
  else
    match current with
    | none => .error ()
    | some c =>
      if looseEqZero c.latitude && looseEqZero c.longitude then .ok false
      else
        match prev with
        | none => .error ()
        | some p =>
          if p.vehicleSpeed ≠ c.vehicleSpeed then .ok true
          else if p.latitude = c.latitude ∧ p.longitude = c.longitude then .ok false
          else if dist p.latitude p.longitude c.latitude c.longitude * 1000 <
              cfg.minTravelDistanceM then .ok false
          else .ok true

/-- The three persistent odometer counters (meters): lifetime, trip A,
trip B. -/
structure OdoState where
  odo : ℚ
  tripA : ℚ
  tripB : ℚ
deriving DecidableEq, Repr

/-- Model of `updateOdoMeters(rClient, prev, current)`: if `prev` is falsy
(none), do nothing; otherwise add the distance in meters between the two
positions to all three counters. -/
def updateOdoMeters (dist : JVal → JVal → JVal → JVal → ℚ) (st : OdoState)
    (prev : Option TripPoint) (current : TripPoint) : OdoState :=
  match prev with
  | none => st
  | some p =>
    let kmDistance := dist p.latitude p.longitude current.latitude current.longitude
    let mDistance := kmDistance * 1000
    { odo := st.odo + mDistance
      tripA := st.tripA + mDistance
      tripB := st.tripB + mDistance }

/-- A trip as returned by `Trip.findOrCreate`; the source only reads its
`tripID` field. -/
structure Trip where
  tripID : JVal
deriving DecidableEq, Repr

/-- The process-local recording state: the module variables `recordingTripA`
and `lastRecordedDataA`. -/
structure RecState where
  recordingTripA : Option Trip
  lastRecordedDataA : Option TripPoint
deriving DecidableEq, Repr

/-- The error-log events emitted by one cycle of `run`. -/
inductive LogEvent where
  | fetchError : LogEvent
  | tripCreateError : LogEvent
  | pointCreateError : LogEvent
deriving DecidableEq, Repr

/-- The external collaborators of one cycle of `run`: the snapshot fetch
(`getCurrentData`), the trip upsert (`Trip.findOrCreate` keyed by the
requested identifier), point persistence (`TripPoint.create`, returning the
persisted record), the distance function and the configuration. -/
structure CycleEnv where
  fetch : Except Unit Obj
  findOrCreate : JVal → Except Unit Trip
  createPoint : TripPoint → Except Unit TripPoint
  dist : JVal → JVal → JVal → JVal → ℚ
  cfg : Config

/-- Observable outcome of one cycle of `run`: the recording state and
odometer counters afterwards, the point persisted this cycle (if any),
whether `setTimeout(run, interval)` was executed, whether the cycle threw
an uncaught exception, the error-log events, whether `pointNeedsUpdate`
was actually called (it is skipped by the `!lastRecordedDataA ||`
short-circuit), the `prev` argument in force when the record gate was
evaluated, whether line 146 reset `recordingTripA`, and whether
`TripPoint.create` was called. -/
structure CycleResult where
  state : RecState
  odo : OdoState
  persisted : Option TripPoint
  rescheduled : Bool
  crashed : Bool
  logs : List LogEvent
  predConsulted : Bool
  prevUsed : Option (Option TripPoint)
  tripWasReset : Bool
  persistAttempted : Bool
deriving DecidableEq, Repr

/-- A cycle that only reschedules: the `else` branches for a falsy
`gpsAlive` or a falsy `recordTripIDA`. -/
def noopResult (rec : RecState) (odoSt : OdoState) : CycleResult where
  state := rec
  odo := odoSt
  persisted := none
  rescheduled := true
  crashed := false
  logs := []
  predConsulted := false
  prevUsed := none
  tripWasReset := false
  persistAttempted := false

/-- The record branch of `run` (the body under the gate at line 148): if no
trip is active, `Trip.findOrCreate` then `TripPoint.create`; otherwise
`TripPoint.create` directly.  On successful persistence the odometer is
updated against the old `lastRecordedDataA` and the returned record becomes
the new last point; failures are logged and only reschedule.  The redis
`set` calls publishing the active identifier have no observable effect on
this state and are not modeled. -/
def recordPhase (env : CycleEnv) (rec : RecState) (odoSt : OdoState)
    (tripA : Option Trip) (point : TripPoint) (o : Obj)
    (wasReset predConsulted : Bool) (prevUsed : Option (Option TripPoint)) :
    CycleResult :=
  match tripA with
  | none =>
    match env.findOrCreate o.recordTripIDA with
    | .error _ =>
      { state := { recordingTripA := none, lastRecordedDataA := rec.lastRecordedDataA }
        odo := odoSt
        persisted := none
        rescheduled := true
        crashed := false
        logs := [.tripCreateError]
        predConsulted := predConsulted
        prevUsed := prevUsed
        tripWasReset := wasReset
        persistAttempted := false }
    | .ok trip =>
      match env.createPoint { point with tripID := trip.tripID } with
      | .ok p =>
        { state := { recordingTripA := some trip, lastRecordedDataA := some p }
          odo := updateOdoMeters env.dist odoSt rec.lastRecordedDataA p
          persisted := some p
          rescheduled := true
          crashed := false
          logs := []
          predConsulted := predConsulted
          prevUsed := prevUsed
          tripWasReset := wasReset
          persistAttempted := true }
      | .error _ =>
        { state := { recordingTripA := some trip, lastRecordedDataA := rec.lastRecordedDataA }
          odo := odoSt
          persisted := none
          rescheduled := true
          crashed := false
          logs := [.pointCreateError]
          predConsulted := predConsulted
          prevUsed := prevUsed
          tripWasReset := wasReset
          persistAttempted := true }
  | some t =>
    match env.createPoint point with
    | .ok p =>
      { state := { recordingTripA := some t, lastRecordedDataA := some p }
        odo := updateOdoMeters env.dist odoSt rec.lastRecordedDataA p
        persisted := some p
        rescheduled := true
        crashed := false
        logs := []
        predConsulted := predConsulted
        prevUsed := prevUsed
        tripWasReset := wasReset
        persistAttempted := true }
    | .error _ =>
      { state := { recordingTripA := some t, lastRecordedDataA := rec.lastRecordedDataA }
        odo := odoSt
        persisted := none
        rescheduled := true
        crashed := false
        logs := [.pointCreateError]
        predConsulted := predConsulted
        prevUsed := prevUsed
        tripWasReset := wasReset
        persistAttempted := true }

/-- One cycle of `run` (lines 139–197 of the source).  On a fetch error the
callback logs and returns without `setTimeout`: `rescheduled := false`.
Otherwise, with a truthy `gpsAlive` and a truthy `recordTripIDA`: line 146
nulls `recordingTripA` when the requested id loosely differs from the
active trip's id (note `lastRecordedDataA` is NOT reset there), the point
is built, and the gate `!lastRecordedDataA || pointNeedsUpdate(...)`
decides whether to record.  A TypeError thrown by `pointNeedsUpdate` would
escape the callback: `crashed := true`. -/
def runCycle (env : CycleEnv) (rec : RecState) (odoSt : OdoState) : CycleResult :=
  match env.fetch with
  | .error _ =>
    { state := rec
      odo := odoSt
      persisted := none
      rescheduled := false
      crashed := false
      logs := [.fetchError]
      predConsulted := false
      prevUsed := none
      tripWasReset := false
      persistAttempted := false }
  | .ok o =>
    if truthy o.gpsAlive then
      if truthy o.recordTripIDA then
        let wasReset : Bool :=
          match rec.recordingTripA with
          | some t => !(looseEq o.recordTripIDA t.tripID)
          | none => false
        let tripA : Option Trip := if wasReset then none else rec.recordingTripA
        let point := transformIntoTripPoint
          (match tripA with | some t => t.tripID | none => .null) o
        match rec.lastRecordedDataA with
        | none =>
          recordPhase env rec odoSt tripA point o wasReset false (some none)
        | some lp =>
          match pointNeedsUpdate env.dist env.cfg (some lp) (some point) with
          | .error _ =>
            { state := { recordingTripA := tripA, lastRecordedDataA := rec.lastRecordedDataA }
              odo := odoSt
              persisted := none
              rescheduled := false
              crashed := true
              logs := []
              predConsulted := true
              prevUsed := some (some lp)
              tripWasReset := wasReset
              persistAttempted := false }
          | .ok true =>
            recordPhase env rec odoSt tripA point o wasReset true (some (some lp))
          | .ok false =>
            { state := { recordingTripA := tripA, lastRecordedDataA := rec.lastRecordedDataA }
              odo := odoSt
              persisted := none
              rescheduled := true
              crashed := false
              logs := []
              predConsulted := true
              prevUsed := some (some lp)
              tripWasReset := wasReset
              persistAttempted := false }
      else noopResult rec odoSt
    else noopResult rec odoSt

/-! Sample inputs used to instantiate the theorems below on concrete data. -/

/-- A distance function that always returns 0 km. -/
def distZero : JVal → JVal → JVal → JVal → ℚ := fun _ _ _ _ => 0

/-- A distance function that always returns 1/100 km, i.e. exactly 10 m. -/
def distCentiKm : JVal → JVal → JVal → JVal → ℚ := fun _ _ _ _ => 1 / 100

/-- The default configuration: minimum travel distance 10 m. -/
def cfg10 : Config := { minTravelDistanceM := 10 }

/-- Build a trip point with the given trip id, position and vehicle speed;
all other fields null. -/
def mkPoint (tid la lo spd : JVal) : TripPoint where
  tripID := tid
  latitude := la
  longitude := lo
  altitude := .null
  fixMode := .null
  gpsSpeed := .null
  accuracyLat := .null
  accuracyLon := .null
  accuracyAlt := .null
  accuracySpd := .null
  vehicleSpeed := spd
  vehicleIntakeTemp := .null
  vehicleIntakeMAP := .null
  vehicleRPM := .null

/-- Build a snapshot with the given liveness flag, requested trip id,
position and vehicle-bus speed; all other signals null. -/
def mkObj (alive tid la lo spd : JVal) : Obj where
  gpsAlive := alive
  obdAlive := .null
  latitude := la
  longitude := lo
  altitude := .null
  fixMode := .null
  gpsTime := .null
  gpsSpeed := .null
  gpsSpeedKMH := .null
  gpsAccuracyLon := .null
  gpsAccuracyLat := .null
  gpsAccuracyHeight := .null
  gpsAccuracySpeed := .null
  obdSpeedKMH := spd
  engineRpm := .null
  intakeTemp := .null
  intakeMAP := .null
  recordTripIDA := tid
  recordTripIDB := .null

/-- All odometer counters at zero. -/
def odo0 : OdoState := { odo := 0, tripA := 0, tripB := 0 }

/-- Recording state with no active trip and no last point. -/
def idleState : RecState := { recordingTripA := none, lastRecordedDataA := none }

/-- A trip with identifier 1. -/
def tripOne : Trip := { tripID := .num 1 }

/-- A last-recorded point of trip 1 at position (5, 5) with vehicle speed 50. -/
def lp2 : TripPoint := mkPoint (.num 1) (.num 5) (.num 5) (.num 50)

/-- A snapshot requesting trip 2 (a different trip than `tripOne`) with a
valid non-zero fix at (5, 5) and vehicle speed 50. -/
def obj2 : Obj := mkObj (.str "1") (.num 2) (.num 5) (.num 5) (.num 50)

/-- An environment whose fetch yields `obj2` and whose oracles succeed. -/
def env2 : CycleEnv where
  fetch := .ok obj2
  findOrCreate := fun v => .ok { tripID := v }
  createPoint := fun p => .ok p
  dist := distZero
  cfg := cfg10

/-- Recording state mid-recording of trip 1 with last point `lp2`. -/
def rec2 : RecState := { recordingTripA := some tripOne, lastRecordedDataA := some lp2 }

/-- An environment whose snapshot fetch fails. -/
def envErr : CycleEnv where
  fetch := .error ()
  findOrCreate := fun v => .ok { tripID := v }
  createPoint := fun p => .ok p
  dist := distZero
  cfg := cfg10

/-- A snapshot requesting trip 7 with a zero/zero (invalid) fix. -/
def obj3 : Obj := mkObj (.str "1") (.num 7) (.num 0) (.num 0) .null

/-- An environment whose fetch yields `obj3` and whose oracles succeed. -/
def env3 : CycleEnv where
  fetch := .ok obj3
  findOrCreate := fun v => .ok { tripID := v }
  createPoint := fun p => .ok p
  dist := distZero
  cfg := cfg10

/-- A snapshot requesting trip 1 with a valid fix at (5, 5). -/
def obj8 : Obj := mkObj (.str "1") (.num 1) (.num 5) (.num 5) (.num 50)

/-- An environment whose fetch yields `obj8` and whose point persistence
always fails. -/
def env8 : CycleEnv where
  fetch := .ok obj8
  findOrCreate := fun v => .ok { tripID := v }
  createPoint := fun _ => .error ()
  dist := distZero
  cfg := cfg10

/-- Recording state with trip 1 active and no last point. -/
def rec8 : RecState := { recordingTripA := some tripOne, lastRecordedDataA := none }

/-- A snapshot with a falsy (null) GPS liveness flag but a trip requested. -/
def obj9 : Obj := mkObj .null (.num 1) (.num 5) (.num 5) .null

/-- An environment whose fetch yields `obj9` and whose oracles succeed. -/
def env9 : CycleEnv where
  fetch := .ok obj9
  findOrCreate := fun v => .ok { tripID := v }
  createPoint := fun p => .ok p
  dist := distZero
  cfg := cfg10

/-- A previous point at the non-zero position (1, 1). -/
def p4prev : TripPoint := mkPoint .null (.num 1) (.num 1) .null

/-- A current point at the zero/zero position. -/
def p4zero : TripPoint := mkPoint .null (.num 0) (.num 0) .null

/-- A previous point at (0, 0) with vehicle speed 5. -/
def p5prev : TripPoint := mkPoint .null (.num 0) (.num 0) (.num 5)

/-- A current point at (0, 0) with vehicle speed 10. -/
def p5cur : TripPoint := mkPoint .null (.num 0) (.num 0) (.num 10)

/-- A previous point at (3, 4) with vehicle speed 5. -/
def p5bPrev : TripPoint := mkPoint .null (.num 3) (.num 4) (.num 5)

/-- A current point at (3, 4) with vehicle speed 9. -/
def p5bCur : TripPoint := mkPoint .null (.num 3) (.num 4) (.num 9)

/-- A previous point at (1, 1) with null vehicle speed. -/
def p6prev : TripPoint := mkPoint .null (.num 1) (.num 1) .null

/-- A current point at (2, 2) with null vehicle speed. -/
def p6cur : TripPoint := mkPoint .null (.num 2) (.num 2) .null

/-! Helper lemmas about the predicate, the record branch and the cycle. -/

/-- With both arguments present, the predicate never dereferences null and
always returns a boolean. -/
lemma pointNeedsUpdate_some_ok (dist : JVal → JVal → JVal → JVal → ℚ) (cfg : Config)
    (p c : TripPoint) : ∃ b, pointNeedsUpdate dist cfg (some p) (some c) = .ok b := by
  unfold pointNeedsUpdate
  simp only [Option.isNone_some, Bool.false_and, Bool.false_eq_true, if_false]
  split
  · exact ⟨false, rfl⟩
  · split
    · exact ⟨true, rfl⟩
    · split
      · exact ⟨false, rfl⟩
      · split
        · exact ⟨false, rfl⟩
        · exact ⟨true, rfl⟩

/-- With both arguments present the predicate does not error. -/
lemma pointNeedsUpdate_some_ne_error (dist : JVal → JVal → JVal → JVal → ℚ)
    (cfg : Config) (p c : TripPoint) (e : Unit) :
    pointNeedsUpdate dist cfg (some p) (some c) ≠ .error e := by
  obtain ⟨b, hb⟩ := pointNeedsUpdate_some_ok dist cfg p c
  simp [hb]

/-- Every branch of the record phase reschedules the loop. -/
lemma recordPhase_rescheduled (env : CycleEnv) (rec : RecState) (odoSt : OdoState)
    (tripA : Option Trip) (point : TripPoint) (o : Obj) (w pc : Bool)
    (pu : Option (Option TripPoint)) :
    (recordPhase env rec odoSt tripA point o w pc pu).rescheduled = true := by
  unfold recordPhase
  repeat' split
  all_goals rfl

/-- The record phase passes its predicate-consulted flag through unchanged. -/
lemma recordPhase_predConsulted (env : CycleEnv) (rec : RecState) (odoSt : OdoState)
    (tripA : Option Trip) (point : TripPoint) (o : Obj) (w pc : Bool)
    (pu : Option (Option TripPoint)) :
    (recordPhase env rec odoSt tripA point o w pc pu).predConsulted = pc := by
  unfold recordPhase
  repeat' split
  all_goals rfl

/-- The record phase passes the recorded gate-time `prev` through unchanged. -/
lemma recordPhase_prevUsed (env : CycleEnv) (rec : RecState) (odoSt : OdoState)
    (tripA : Option Trip) (point : TripPoint) (o : Obj) (w pc : Bool)
    (pu : Option (Option TripPoint)) :
    (recordPhase env rec odoSt tripA point o w pc pu).prevUsed = pu := by
  unfold recordPhase
  repeat' split
  all_goals rfl

/-- The record phase passes the trip-reset flag through unchanged. -/
lemma recordPhase_tripWasReset (env : CycleEnv) (rec : RecState) (odoSt : OdoState)
    (tripA : Option Trip) (point : TripPoint) (o : Obj) (w pc : Bool)
    (pu : Option (Option TripPoint)) :
    (recordPhase env rec odoSt tripA point o w pc pu).tripWasReset = w := by
  unfold recordPhase
  repeat' split
  all_goals rfl

/-- When the trip upsert and the point persistence succeed, the record phase
persists a point. -/
lemma recordPhase_persisted_isSome (env : CycleEnv) (rec : RecState) (odoSt : OdoState)
    (tripA : Option Trip) (point : TripPoint) (o : Obj) (w pc : Bool)
    (pu : Option (Option TripPoint)) (t : Trip)
    (hfc : env.findOrCreate o.recordTripIDA = .ok t)
    (hcp : ∀ pt, env.createPoint pt = .ok pt) :
    (recordPhase env rec odoSt tripA point o w pc pu).persisted.isSome = true := by
  unfold recordPhase
  rcases tripA with _ | t'
  · simp [hfc, hcp]
  · simp [hcp]

/-- When point persistence fails and was attempted, the record phase logs the
point-creation error, keeps the last recorded point, and reschedules. -/
lemma recordPhase_createPoint_error (env : CycleEnv) (rec : RecState) (odoSt : OdoState)
    (tripA : Option Trip) (point : TripPoint) (o : Obj) (w pc : Bool)
    (pu : Option (Option TripPoint))
    (hcp : ∀ pt, env.createPoint pt = .error ())
    (hp : (recordPhase env rec odoSt tripA point o w pc pu).persistAttempted = true) :
    LogEvent.pointCreateError ∈ (recordPhase env rec odoSt tripA point o w pc pu).logs ∧
    (recordPhase env rec odoSt tripA point o w pc pu).state.lastRecordedDataA =
      rec.lastRecordedDataA ∧
    (recordPhase env rec odoSt tripA point o w pc pu).rescheduled = true := by
  unfold recordPhase at hp ⊢
  rcases tripA with _ | t
  · rcases hf : env.findOrCreate o.recordTripIDA with e | trip
    · simp [hf] at hp
    · simp [hf, hcp]
  · simp [hcp]

/-- Every cycle either never calls `TripPoint.create` or is the outcome of
the record phase. -/
lemma runCycle_cases (env : CycleEnv) (rec : RecState) (odoSt : OdoState) :
    (runCycle env rec odoSt).persistAttempted = false ∨
    ∃ tripA point o w pc pu,
      runCycle env rec odoSt = recordPhase env rec odoSt tripA point o w pc pu := by
  unfold runCycle
  split
  · left
    rfl
  · split
    · split
      · dsimp only
        split
        · right
          exact ⟨_, _, _, _, _, _, rfl⟩
        · split
          · left
            rfl
          · right
            exact ⟨_, _, _, _, _, _, rfl⟩
          · left
            rfl
      · left
        rfl
    · left
      rfl

/-! Claim theorems. -/

/-- C1 counterexample: on a snapshot-fetch error the cycle does NOT schedule
the next cycle — the loop terminates itself, contradicting the claim that
every exit path (the snapshot-fetch-error path included) reschedules. -/
theorem fetch_error_terminates_loop_cex :
    envErr.fetch = .error () ∧
    (runCycle envErr idleState odo0).rescheduled = false :=
  ⟨rfl, rfl⟩

/-- C1 (amended): on every cycle whose snapshot fetch succeeds, every exit
path — successful persistence, predicate-false no-op, liveness or trip-id
no-op, trip-creation error, point-persistence error — schedules the next
cycle; only the snapshot-fetch-error path fails to reschedule. -/
theorem reschedules_after_successful_fetch (env : CycleEnv) (rec : RecState)
    (odoSt : OdoState) (o : Obj) (h : env.fetch = .ok o) :
    (runCycle env rec odoSt).rescheduled = true := by
  unfold runCycle
  simp only [h]
  split
  · split
    · split
      · exact recordPhase_rescheduled _ _ _ _ _ _ _ _ _
      · split
        · rename_i heq
          exact absurd heq (pointNeedsUpdate_some_ne_error _ _ _ _ _)
        · exact recordPhase_rescheduled _ _ _ _ _ _ _ _ _
        · rfl
    · rfl
  · rfl

/-- C1 witness: a concrete successful-fetch cycle reschedules. -/
theorem reschedules_after_successful_fetch_witness :
    (runCycle env2 rec2 odo0).rescheduled = true :=
  reschedules_after_successful_fetch env2 rec2 odo0 obj2 rfl

/-- C2 counterexample: mid-recording of trip 1 with last point `lp2`, a
snapshot requesting trip 2 with a valid non-zero fix leaves
`lastRecordedDataA` as `lp2` (it is not reset to none), the predicate is
evaluated with prev = `lp2` rather than none, and no point is persisted —
contradicting the claim that both are reset and that the first point of the
new trip is recorded unconditionally. -/
theorem trip_change_keeps_last_point_cex :
    looseEq obj2.recordTripIDA tripOne.tripID = false ∧
    rec2.recordingTripA = some tripOne ∧
    truthy obj2.gpsAlive = true ∧
    looseEqZero obj2.latitude = false ∧
    (runCycle env2 rec2 odo0).prevUsed = some (some lp2) ∧
    (runCycle env2 rec2 odo0).state.lastRecordedDataA = some lp2 ∧
    (runCycle env2 rec2 odo0).persisted = none :=
  ⟨rfl, rfl, rfl, rfl, rfl, rfl, rfl⟩

/-- C2 (amended): when the requested trip identifier loosely differs from
the active trip's identifier, only the active trip is reset to none; the
last-persisted point is retained, and the next significance-predicate
evaluation uses prev = the retained old point, so the first point of the
new trip is recorded only when significant relative to the old trip's last
point. -/
theorem trip_change_resets_only_trip (env : CycleEnv) (rec : RecState)
    (odoSt : OdoState) (o : Obj) (t : Trip) (lp : TripPoint)
    (hf : env.fetch = .ok o) (hg : truthy o.gpsAlive = true)
    (ht : truthy o.recordTripIDA = true)
    (ha : rec.recordingTripA = some t)
    (hd : looseEq o.recordTripIDA t.tripID = false)
    (hl : rec.lastRecordedDataA = some lp) :
    (runCycle env rec odoSt).tripWasReset = true ∧
    (runCycle env rec odoSt).prevUsed = some (some lp) ∧
    (runCycle env rec odoSt).predConsulted = true := by
  unfold runCycle
  simp only [hf, hg, ht, ha, hd, hl, Bool.not_false, if_true]
  split
  · exact ⟨rfl, rfl, rfl⟩
  · exact ⟨recordPhase_tripWasReset _ _ _ _ _ _ _ _ _,
      recordPhase_prevUsed _ _ _ _ _ _ _ _ _,
      recordPhase_predConsulted _ _ _ _ _ _ _ _ _⟩
  · exact ⟨rfl, rfl, rfl⟩

/-- C2 witness: the concrete mid-recording trip change of the
counterexample satisfies the amended claim. -/
theorem trip_change_resets_only_trip_witness :
    (runCycle env2 rec2 odo0).tripWasReset = true ∧
    (runCycle env2 rec2 odo0).prevUsed = some (some lp2) ∧
    (runCycle env2 rec2 odo0).predConsulted = true :=
  trip_change_resets_only_trip env2 rec2 odo0 obj2 tripOne lp2 rfl rfl rfl rfl rfl rfl

/-- C3: on a cycle with a truthy GPS liveness flag, a truthy requested trip
identifier and no last recorded point, the loop does not consult the
significance predicate (the short-circuit) and, with succeeding oracles,
persists a point — whatever the fix, including a zero/zero one. -/
theorem first_point_skips_predicate (env : CycleEnv) (rec : RecState)
    (odoSt : OdoState) (o : Obj) (t : Trip)
    (hf : env.fetch = .ok o) (hg : truthy o.gpsAlive = true)
    (ht : truthy o.recordTripIDA = true)
    (hl : rec.lastRecordedDataA = none)
    (hfc : env.findOrCreate o.recordTripIDA = .ok t)
    (hcp : ∀ pt, env.createPoint pt = .ok pt) :
    (runCycle env rec odoSt).predConsulted = false ∧
    (runCycle env rec odoSt).persisted.isSome = true := by
  unfold runCycle
  simp only [hf, hg, ht, hl, if_true]
  exact ⟨recordPhase_predConsulted _ _ _ _ _ _ _ _ _,
    recordPhase_persisted_isSome _ _ _ _ _ _ _ _ _ t hfc hcp⟩

/-- C3 witness: a zero/zero invalid fix is persisted as the first point of
trip 7 without the predicate being consulted. -/
theorem first_point_skips_predicate_witness :
    (runCycle env3 idleState odo0).predConsulted = false ∧
    (runCycle env3 idleState odo0).persisted.isSome = true :=
  first_point_skips_predicate env3 idleState odo0 obj3 { tripID := .num 7 }
    rfl rfl rfl rfl rfl (fun _ => rfl)

/-- C4: whenever the current point's latitude and longitude both loosely
equal 0, the predicate returns false for every prev; and the none/none case
returns false through rule 1. -/
theorem zero_zero_fix_never_recorded (dist : JVal → JVal → JVal → JVal → ℚ)
    (cfg : Config) (prev : Option TripPoint) (c : TripPoint)
    (hla : looseEqZero c.latitude = true) (hlo : looseEqZero c.longitude = true) :
    pointNeedsUpdate dist cfg prev (some c) = .ok false ∧
    pointNeedsUpdate dist cfg none none = .ok false := by
  constructor
  · cases prev <;> simp [pointNeedsUpdate, hla, hlo]
  · rfl

/-- C4 witness: the zero/zero point is not recorded after `p4prev`, and the
none/none case returns false. -/
theorem zero_zero_fix_never_recorded_witness :
    looseEqZero p4zero.latitude = true ∧
    looseEqZero p4zero.longitude = true ∧
    pointNeedsUpdate distZero cfg10 (some p4prev) (some p4zero) = .ok false ∧
    pointNeedsUpdate distZero cfg10 none none = .ok false :=
  ⟨rfl, rfl,
    (zero_zero_fix_never_recorded distZero cfg10 (some p4prev) p4zero rfl rfl).1,
    (zero_zero_fix_never_recorded distZero cfg10 (some p4prev) p4zero rfl rfl).2⟩

/-- C5 counterexample: with identical zero/zero positions and differing
vehicle speeds the predicate returns false (rule 3 fires before the speed
check), contradicting the claim that identical positions with differing
speed always return true. -/
theorem identical_zero_position_speed_change_cex :
    p5prev.latitude = p5cur.latitude ∧
    p5prev.longitude = p5cur.longitude ∧
    p5prev.vehicleSpeed ≠ p5cur.vehicleSpeed ∧
    pointNeedsUpdate distZero cfg10 (some p5prev) (some p5cur) = .ok false :=
  ⟨rfl, rfl, by decide, rfl⟩

/-- C5 (amended): for a non-none prev and a current with identical latitude
and longitude, provided the current position is not the zero/zero sentinel,
the predicate returns true exactly when the vehicle speed fields differ. -/
theorem identical_position_update_iff_speed_change
    (dist : JVal → JVal → JVal → JVal → ℚ) (cfg : Config) (p c : TripPoint)
    (hla : c.latitude = p.latitude) (hlo : c.longitude = p.longitude)
    (hz : ¬(looseEqZero c.latitude = true ∧ looseEqZero c.longitude = true)) :
    pointNeedsUpdate dist cfg (some p) (some c) =
      .ok (decide (p.vehicleSpeed ≠ c.vehicleSpeed)) := by
  unfold pointNeedsUpdate
  simp only [Option.isNone_some, Bool.false_and, Bool.false_eq_true, if_false]
  rw [if_neg]
  · by_cases hs : p.vehicleSpeed = c.vehicleSpeed
    · rw [if_neg (by simp [hs]), if_pos ⟨hla.symm, hlo.symm⟩]
      simp [hs]
    · rw [if_pos hs]
      simp [hs]
  · simp only [Bool.and_eq_true]
    exact hz

/-- C5 witness: identical non-zero positions with differing speeds yield an
update. -/
theorem identical_position_update_iff_speed_change_witness :
    ¬(looseEqZero p5bCur.latitude = true ∧ looseEqZero p5bCur.longitude = true) ∧
    pointNeedsUpdate distZero cfg10 (some p5bPrev) (some p5bCur) =
      .ok (decide (p5bPrev.vehicleSpeed ≠ p5bCur.vehicleSpeed)) :=
  ⟨by decide,
    identical_position_update_iff_speed_change distZero cfg10 p5bPrev p5bCur
      rfl rfl (by decide)⟩

/-- C6: for a non-none prev and a current with differing positions (current
not the zero/zero sentinel) and equal vehicle speed, the predicate returns
false exactly when the distance in meters is strictly below the configured
minimum travel distance; a distance exactly at the threshold yields an
update. -/
theorem distance_threshold_gates_update (dist : JVal → JVal → JVal → JVal → ℚ)
    (cfg : Config) (p c : TripPoint)
    (hz : ¬(looseEqZero c.latitude = true ∧ looseEqZero c.longitude = true))
    (hs : p.vehicleSpeed = c.vehicleSpeed)
    (hpos : ¬(p.latitude = c.latitude ∧ p.longitude = c.longitude)) :
    (pointNeedsUpdate dist cfg (some p) (some c) = .ok false ↔
      dist p.latitude p.longitude c.latitude c.longitude * 1000 <
        cfg.minTravelDistanceM) ∧
    (dist p.latitude p.longitude c.latitude c.longitude * 1000 =
        cfg.minTravelDistanceM →
      pointNeedsUpdate dist cfg (some p) (some c) = .ok true) := by
  have hmain : pointNeedsUpdate dist cfg (some p) (some c) =
      if dist p.latitude p.longitude c.latitude c.longitude * 1000 <
          cfg.minTravelDistanceM
      then .ok false else .ok true := by
    unfold pointNeedsUpdate
    simp only [Option.isNone_some, Bool.false_and, Bool.false_eq_true, if_false]
    rw [if_neg (by simpa only [Bool.and_eq_true] using hz), if_neg (by simp [hs]),
      if_neg hpos]
  constructor
  · rw [hmain]
    by_cases hlt : dist p.latitude p.longitude c.latitude c.longitude * 1000 <
      cfg.minTravelDistanceM
    · simp [hlt]
    · simp [hlt]
  · intro heq
    rw [hmain, if_neg (by rw [heq]; exact lt_irrefl _)]

/-- C6 witness: a pair of points exactly 10 m apart under `distCentiKm`
meets the default 10 m threshold and is recorded. -/
theorem distance_threshold_gates_update_witness :
    distCentiKm p6prev.latitude p6prev.longitude p6cur.latitude p6cur.longitude *
      1000 = cfg10.minTravelDistanceM ∧
    pointNeedsUpdate distCentiKm cfg10 (some p6prev) (some p6cur) = .ok true :=
  ⟨by norm_num [distCentiKm, cfg10],
    (distance_threshold_gates_update distCentiKm cfg10 p6prev p6cur
      (by decide) rfl (by decide)).2 (by norm_num [distCentiKm, cfg10])⟩

/-- C7: the odometer accumulator is a no-op when prev is none, and otherwise
adds the same distance in meters to all three counters, with no threshold. -/
theorem odometer_accumulates_all_three (dist : JVal → JVal → JVal → JVal → ℚ)
    (st : OdoState) (c : TripPoint) :
    updateOdoMeters dist st none c = st ∧
    ∀ p, updateOdoMeters dist st (some p) c =
      { odo := st.odo + dist p.latitude p.longitude c.latitude c.longitude * 1000
        tripA := st.tripA + dist p.latitude p.longitude c.latitude c.longitude * 1000
        tripB := st.tripB + dist p.latitude p.longitude c.latitude c.longitude * 1000 } :=
  ⟨rfl, fun _ => rfl⟩

/-- C8: whenever point persistence fails on a cycle that attempted it, the
error is logged, the last recorded point is left unchanged, and the loop is
rescheduled. -/
theorem persist_failure_keeps_last_point (env : CycleEnv) (rec : RecState)
    (odoSt : OdoState)
    (hcp : ∀ pt, env.createPoint pt = .error ())
    (hp : (runCycle env rec odoSt).persistAttempted = true) :
    LogEvent.pointCreateError ∈ (runCycle env rec odoSt).logs ∧
    (runCycle env rec odoSt).state.lastRecordedDataA = rec.lastRecordedDataA ∧
    (runCycle env rec odoSt).rescheduled = true := by
  rcases runCycle_cases env rec odoSt with hc | ⟨tripA, point, o, w, pc, pu, hc⟩
  · rw [hc] at hp
    simp at hp
  · rw [hc] at hp ⊢
    exact recordPhase_createPoint_error env rec odoSt tripA point o w pc pu hcp hp

/-- C8 witness: a concrete cycle whose point persistence fails logs the
error, keeps the (empty) last point and reschedules. -/
theorem persist_failure_keeps_last_point_witness :
    LogEvent.pointCreateError ∈ (runCycle env8 rec8 odo0).logs ∧
    (runCycle env8 rec8 odo0).state.lastRecordedDataA = rec8.lastRecordedDataA ∧
    (runCycle env8 rec8 odo0).rescheduled = true :=
  persist_failure_keeps_last_point env8 rec8 odo0 (fun _ => rfl) rfl

/-- C9: on every successfully fetched cycle where the GPS liveness flag is
falsy or the requested trip identifier is falsy, the cycle is exactly the
no-op outcome: state and counters unchanged, nothing persisted, no errors,
only a reschedule. -/
theorem dead_gps_or_no_trip_is_noop (env : CycleEnv) (rec : RecState)
    (odoSt : OdoState) (o : Obj) (hf : env.fetch = .ok o)
    (h : truthy o.gpsAlive = false ∨ truthy o.recordTripIDA = false) :
    runCycle env rec odoSt = noopResult rec odoSt := by
  unfold runCycle
  rcases h with h1 | h1
  · simp [hf, h1]
  · simp [hf, h1]

/-- C9 witness: a concrete cycle with a null GPS liveness flag is a no-op. -/
theorem dead_gps_or_no_trip_is_noop_witness :
    truthy obj9.gpsAlive = false ∧
    runCycle env9 rec2 odo0 = noopResult rec2 odo0 :=
  ⟨rfl, dead_gps_or_no_trip_is_noop env9 rec2 odo0 obj9 rfl (Or.inl rfl)⟩

/-- C10: the predicate is not total on its declared domain: with prev none
and a current whose latitude is 0 but whose longitude is non-zero,
evaluation falls past rules 1–3 and dereferences prev's vehicle-speed field,
reaching the error branch. -/
theorem predicate_error_reachable (dist : JVal → JVal → JVal → JVal → ℚ)
    (cfg : Config) :
    pointNeedsUpdate dist cfg none (some (mkPoint .null (.num 0) (.num 1) .null)) =
      .error () := by
  rfl

end GPSRec
